import Mathlib

/-!
Shallow embedding of the `transform-exports` rewrite pass
(`src/transform/src/lib.rs`), together with proofs checking the
natural-language specification against the code.

The repository code depends on three external crates whose behaviour the
spec fixes at their interface: `regex` (pattern matching with capture
groups, leftmost-first search, auto-anchoring is done by the repository
itself), `handlebars` (template rendering, non-strict by default), and
`convert_case` (the case helpers).  Those externals are modelled here by
small executable Lean functions (`reCaptures`, `renderTemplate`,
`camelCaseHelper`, ...) restricted to the constructs the configuration
language uses; everything from `lib.rs` itself (auto-anchoring, the
duplicate-slash replacement, the rewrite loops, the statement driver) is
translated directly from the source.
-/

namespace TransformExports

instance {ε α : Type} [DecidableEq ε] [DecidableEq α] : DecidableEq (Except ε α) :=
  fun x y =>
    match x, y with
    | .ok a, .ok b =>
      if h : a = b then isTrue (by rw [h])
      else isFalse (by intro hc; cases hc; exact h rfl)
    | .error a, .error b =>
      if h : a = b then isTrue (by rw [h])
      else isFalse (by intro hc; cases hc; exact h rfl)
    | .ok _, .error _ => isFalse (by intro hc; cases hc)
    | .error _, .ok _ => isFalse (by intro hc; cases hc)

/-! ## Strings as character lists -/

/-- Substring of `cs` from position `a` (inclusive) to `b` (exclusive),
as used to extract the text of a regex capture group. -/
def sliceStr (cs : List Char) (a b : Nat) : String :=
  String.mk ((cs.drop a).take (b - a))

/-! ## Model of the external `regex` crate

Restricted to the constructs appearing in this development: literal
characters, the anchors, the any-character class, capture groups and the
star quantifier.  Matching is leftmost-first with greedy repetition and
last-iteration-wins capture slots, as in the `regex` crate. -/

/-- Abstract syntax of the regex fragment. -/
inductive RE where
  | eps
  | lit (c : Char)
  | dot
  | seq (a b : RE)
  | star (a : RE)
  | group (n : Nat) (a : RE)
  | bos
  | eos
deriving DecidableEq, Repr

/-- Capture slots: group number to (start, end) span.  Earlier entries
shadow later ones, so prepending implements last-iteration-wins. -/
abbrev Caps := List (Nat × (Nat × Nat))

/-- Size of a regex term, used to budget matcher fuel. -/
def RE.size : RE → Nat
  | .eps | .lit _ | .dot | .bos | .eos => 1
  | .seq a b => a.size + b.size + 1
  | .star a => a.size + 1
  | .group _ a => a.size + 1

/-- All ways to match `re` at position `pos` of `full`, in preference
order (greedy star first), each with its end position and captures.
Fuel makes the recursion structural; `matchFuel` below always supplies
enough of it for the patterns evaluated in this file. -/
def reMatchF : Nat → List Char → RE → Nat → List (Nat × Caps)
  | 0, _, _, _ => []
  | fuel + 1, full, re, pos =>
    match re with
    | .eps => [(pos, [])]
    | .lit c =>
      match full.get? pos with
      | some c2 => if c2 = c then [(pos + 1, [])] else []
      | none => []
    | .dot =>
      match full.get? pos with
      | some c2 => if c2 = '\n' then [] else [(pos + 1, [])]
      | none => []
    | .bos => if pos = 0 then [(pos, [])] else []
    | .eos => if pos = full.length then [(pos, [])] else []
    | .seq a b =>
      (reMatchF fuel full a pos).flatMap (fun ec =>
        if pos ≤ ec.1 ∧ ec.1 ≤ full.length then
          (reMatchF fuel full b ec.1).map (fun ec2 => (ec2.1, ec2.2 ++ ec.2))
        else [])
    | .group n a =>
      (reMatchF fuel full a pos).map (fun ec => (ec.1, (n, (pos, ec.1)) :: ec.2))
    | .star a =>
      ((reMatchF fuel full a pos).flatMap (fun ec =>
        if pos < ec.1 ∧ ec.1 ≤ full.length then
          (reMatchF fuel full (.star a) ec.1).map (fun ec2 => (ec2.1, ec2.2 ++ ec.2))
        else [])) ++ [(pos, [])]

/-- A generous fuel bound for `reMatchF` on input of length `len`. -/
def matchFuel (re : RE) (len : Nat) : Nat :=
  (re.size + 2) * (len + 2) * (len + 2)

/-- Leftmost-first search: try each start position `0, 1, ..., len` and
return the first position where the pattern matches, with the match end
and the capture slots of the preferred (first-listed) match. -/
def reSearch (full : List Char) (re : RE) : Option (Nat × Nat × Caps) :=
  (List.range (full.length + 1)).findSome? (fun p =>
    match reMatchF (matchFuel re full.length) full re p with
    | [] => none
    | ec :: _ => some (p, ec.1, ec.2))

/-- A compiled pattern: the parsed fragment plus its capture-group count
(the `regex` crate always reports one slot per syntactic group, plus
slot 0 for the whole match, whether or not a group participated). -/
structure CompiledRE where
  re : RE
  groups : Nat
deriving DecidableEq, Repr

/-- `Regex::captures`: `none` when the pattern matches nowhere, otherwise
one entry per capture slot; slot 0 is the whole match, a group that did
not participate in the match is `none`. -/
def reCaptures (cre : CompiledRE) (s : String) : Option (List (Option String)) :=
  (reSearch s.data cre.re).map (fun r =>
    some (sliceStr s.data r.1 r.2.1) ::
      (List.range cre.groups).map (fun i =>
        (r.2.2.lookup (i + 1)).map (fun ab => sliceStr s.data ab.1 ab.2)))

/-- Characters with a meaning of their own in the modelled fragment.  A
pattern using a construct outside the fragment fails to compile in the
model. -/
def isMeta (c : Char) : Bool :=
  c = '^' || c = '$' || c = '.' || c = '(' || c = ')' || c = '*' ||
  c = '+' || c = '?' || c = '[' || c = ']' || c = '{' || c = '}' ||
  c = '|' || c = '\\'

mutual

/-- Parse one atom (possibly a parenthesised group); returns the parsed
regex, the updated group counter, and the remaining input. -/
def parseAtomF : Nat → Nat → List Char → Option (RE × Nat × List Char)
  | 0, _, _ => none
  | fuel + 1, g, cs =>
    match cs with
    | '^' :: rest => some (.bos, g, rest)
    | '$' :: rest => some (.eos, g, rest)
    | '.' :: rest => some (.dot, g, rest)
    | '(' :: rest =>
      match parseSeqF fuel (g + 1) rest with
      | some (a, g2, ')' :: rest2) => some (.group (g + 1) a, g2, rest2)
      | _ => none
    | c :: rest => if isMeta c then none else some (.lit c, g, rest)
    | [] => none

/-- Parse a sequence of atoms with optional postfix `*`, stopping at a
closing parenthesis or the end of input. -/
def parseSeqF : Nat → Nat → List Char → Option (RE × Nat × List Char)
  | 0, _, _ => none
  | fuel + 1, g, cs =>
    match cs with
    | [] => some (.eps, g, [])
    | ')' :: _ => some (.eps, g, cs)
    | _ =>
      match parseAtomF fuel g cs with
      | none => none
      | some (a, g1, rest) =>
        match rest with
        | '*' :: '*' :: _ => none
        | '*' :: rest2 =>
          match parseSeqF fuel g1 rest2 with
          | some (b, g2, rest3) => some (.seq (.star a) b, g2, rest3)
          | none => none
        | _ =>
          match parseSeqF fuel g1 rest with
          | some (b, g2, rest3) => some (.seq a b, g2, rest3)
          | none => none

end

/-- `Regex::new` (via `CachedRegex::new`): compile a pattern string, or
fail when it is not a valid pattern of the modelled fragment. -/
def compileRegex (p : String) : Option CompiledRE :=
  match parseSeqF (2 * p.length + 2) 0 p.data with
  | some (re, g, []) => some ⟨re, g⟩
  | _ => none

/-! ## Model of the external `convert_case` crate

Only the two cases the code registers helpers for.  Words are split on
the separators underscore, hyphen and space, and before an uppercase
letter that follows a lowercase letter or digit. -/

/-- Word splitting: `acc` is the current word, reversed. -/
def splitWordsGo (acc : List Char) : List Char → List (List Char)
  | [] => if acc.isEmpty then [] else [acc.reverse]
  | c :: rest =>
    if c = '_' || c = '-' || c = ' ' then
      if acc.isEmpty then splitWordsGo [] rest
      else acc.reverse :: splitWordsGo [] rest
    else if c.isUpper && (match acc with
                          | p :: _ => p.isLower || p.isDigit
                          | [] => false) then
      acc.reverse :: splitWordsGo [c] rest
    else
      splitWordsGo (c :: acc) rest

def splitWords (s : String) : List (List Char) :=
  splitWordsGo [] s.data

def lowerWord (w : List Char) : List Char := w.map Char.toLower

def capitalizeWord : List Char → List Char
  | [] => []
  | c :: rest => c.toUpper :: rest.map Char.toLower

/-- `convert_case` `Case::Camel`. -/
def camelCaseHelper (s : String) : String :=
  match splitWords s with
  | [] => ""
  | w :: ws => String.mk (lowerWord w ++ (ws.flatMap capitalizeWord))

/-- `convert_case` `Case::Kebab`. -/
def kebabCaseHelper (s : String) : String :=
  String.intercalate "-" ((splitWords s).map (fun w => String.mk (lowerWord w)))

/-- `str::to_lowercase`. -/
def lowerCaseHelper (s : String) : String := String.mk (s.data.map Char.toLower)

/-- `str::to_uppercase`. -/
def upperCaseHelper (s : String) : String := String.mk (s.data.map Char.toUpper)

/-! ## Model of the external `handlebars` crate

The render context built by the code has a string entry `member`, an
array entry `matches`, and (only inside the member-rule loop) an array
entry `memberMatches`; see `rewrite_named` / `rewrite_all` in
`lib.rs`.  The renderer is created by `modularize_exports` with its
defaults — in particular strict mode is off, so a path that resolves to
nothing renders as the empty string — and with the four case helpers
registered.  Each helper reads its first parameter with
`as_str().unwrap_or("")` (`lib.rs`, `helper_lower_case` etc.), so a
non-string or missing argument becomes the empty string. -/

/-- The render context (serialisation of the `HashMap<&str, Data>` the
code builds).  `matches_` models the entry under the key "matches"
(`matches` itself is reserved in Lean). -/
structure Ctx where
  matches_ : List String
  member : String
  memberMatches : Option (List String)
deriving DecidableEq, Repr

def digitsToNat (cs : List Char) : Nat :=
  cs.foldl (fun n c => n * 10 + (c.toNat - '0'.toNat)) 0

/-- Parse a handlebars path of the shapes used by the configuration
language: a bare identifier, or an identifier followed by an index
segment as in `matches.[1]`. -/
def parsePath (cs : List Char) : Option (String × Option Nat) :=
  let ident := cs.takeWhile (fun c => c.isAlphanum)
  let rest := cs.dropWhile (fun c => c.isAlphanum)
  if ident.isEmpty then none
  else
    match rest with
    | [] => some (String.mk ident, none)
    | '.' :: '[' :: rest2 =>
      let digits := rest2.takeWhile Char.isDigit
      let rest3 := rest2.dropWhile Char.isDigit
      if digits.isEmpty then none
      else match rest3 with
        | [']'] => some (String.mk ident, some (digitsToNat digits))
        | _ => none
    | _ => none

/-- Resolve a path against the context.  `none` means the path resolves
to no string value (absent binding, index out of range, or an array
without an index); in non-strict mode such a path renders as `""`. -/
def resolvePath (ctx : Ctx) : String × Option Nat → Option String
  | ("member", none) => some ctx.member
  | ("matches", some i) => ctx.matches_.get? i
  | ("memberMatches", some i) => ctx.memberMatches.bind (fun g => g.get? i)
  | _ => none

/-- The four helpers registered by `modularize_exports`. -/
def applyHelper (name : String) (arg : String) : Option String :=
  if name = "lowerCase" then some (lowerCaseHelper arg)
  else if name = "upperCase" then some (upperCaseHelper arg)
  else if name = "camelCase" then some (camelCaseHelper arg)
  else if name = "kebabCase" then some (kebabCaseHelper arg)
  else none

/-- Evaluate the inside of one `\x7b\x7bexpr\x7d\x7d` interpolation. -/
def evalExpr (cs : List Char) (ctx : Ctx) : Except String String :=
  match (cs.splitOn ' ').filter (fun w => ¬ w.isEmpty) with
  | [p] =>
    match parsePath p with
    | some path => .ok ((resolvePath ctx path).getD "")
    | none => .error "invalid template expression"
  | [h, p] =>
    match parsePath p with
    | some path =>
      match applyHelper (String.mk h) ((resolvePath ctx path).getD "") with
      | some v => .ok v
      | none => .error "helper not defined"
    | none => .error "invalid template expression"
  | _ => .error "invalid template expression"

/-- Find the closing delimiter of an interpolation; returns the inside
and the remainder. -/
def findClose : List Char → Option (List Char × List Char)
  | [] => none
  | '}' :: '}' :: rest => some ([], rest)
  | c :: rest => (findClose rest).map (fun p => (c :: p.1, p.2))

/-- Template scanning; fuel makes the recursion structural and
`renderTemplate` always supplies enough of it. -/
def renderGo : Nat → List Char → Ctx → Except String (List Char)
  | 0, _, _ => .error "out of fuel"
  | _ + 1, [], _ => .ok []
  | fuel + 1, '{' :: '{' :: rest, ctx =>
    match findClose rest with
    | none => .error "invalid template syntax"
    | some (inner, rest2) =>
      match evalExpr inner ctx with
      | .error e => .error e
      | .ok v =>
        match renderGo fuel rest2 ctx with
        | .error e => .error e
        | .ok tail => .ok (v.data ++ tail)
  | fuel + 1, c :: rest, ctx =>
    match renderGo fuel rest ctx with
    | .error e => .error e
    | .ok tail => .ok (c :: tail)

/-- `Handlebars::render_template` for the modelled fragment. -/
def renderTemplate (t : String) (ctx : Ctx) : Except String String :=
  (renderGo (t.length + 1) t.data ctx).map String.mk

/-! ## The `swc_ecma_ast` shapes the pass reads and writes

Spans are opaque numbers; a `Str` node is represented by its string
value (`Str::from` builds one from the rendered path); the optional
`with` attributes clause only matters by its presence. -/

/-- `ModuleExportName`. -/
inductive ModuleExportName where
  | ident (s : String)
  | str (s : String)
deriving DecidableEq, Repr

/-- The text of an export name (`as_ref` on the ident, `.value` on the
string), as read by `rewrite_named`. -/
def ModuleExportName.text : ModuleExportName → String
  | .ident s => s
  | .str s => s

/-- `ExportNamedSpecifier`. -/
structure ExportNamedSpecifier where
  span : Nat
  orig : ModuleExportName
  exported : Option ModuleExportName
  isTypeOnly : Bool
deriving DecidableEq, Repr

/-- `ExportSpecifier`: plain named, namespace, or default form. -/
inductive ExportSpecifier where
  | named (s : ExportNamedSpecifier)
  | nsSpec (span : Nat) (name : ModuleExportName)
  | defaultSpec (span : Nat) (exported : String)
deriving DecidableEq, Repr

def ExportSpecifier.isNamed : ExportSpecifier → Bool
  | .named _ => true
  | _ => false

/-- `NamedExport` (the statement). `withAttrs` models the `with`
field. -/
structure NamedExport where
  span : Nat
  specifiers : List ExportSpecifier
  src : Option String
  typeOnly : Bool
  withAttrs : Option Unit
deriving DecidableEq, Repr

/-- `ExportAll` (the statement). -/
structure ExportAll where
  span : Nat
  src : String
  typeOnly : Bool
  withAttrs : Option Unit
deriving DecidableEq, Repr

/-- `ModuleItem`: the two export statement shapes the driver inspects,
and everything else passes through opaquely. -/
inductive ModuleItem where
  | exportNamed (d : NamedExport)
  | exportAll (d : ExportAll)
  | other (k : Nat)
deriving DecidableEq, Repr

structure Module where
  body : List ModuleItem
deriving DecidableEq, Repr

/-! ## Configuration (`Config`, `PackageConfig`, `Transform`) -/

/-- `Transform`: a single template string or an ordered member-rule
list. -/
inductive Transform where
  | string (s : String)
  | vec (v : List (String × String))
deriving DecidableEq, Repr

structure PackageConfig where
  transform : Transform
  preventFullExport : Bool
  skipDefaultConversion : Bool
deriving DecidableEq, Repr

/-- `Config.packages` is a `HashMap`; its iteration order in
`modularize_exports` is modelled by the list order. -/
abbrev Config := List (String × PackageConfig)

/-- The fatal outcomes of the pass.  In the code each is a panic
(`unwrap`/`expect`/explicit `panic`); here they are error values.  The
payloads record what the panic message reports. -/
inductive TError where
  /-- `CachedRegex::new(..).expect("transform-exports: invalid regex")`. -/
  | invalidRegex
  /-- "error rendering template for KEY: MSG". -/
  | renderError (key msg : String)
  /-- "missing transform for export MEMBER of package KEY" (the
  export-all variant fixes MEMBER to "*"). -/
  | missingRule (member key : String)
  /-- "export ... causes the entire module to be exported". -/
  | fullModuleExport
deriving DecidableEq, Repr

/-! ## The rewrite engine (`Rewriter` and its two methods) -/

/-- The auto-anchoring applied both to package keys
(`modularize_exports`) and to member patterns (the loops in
`rewrite_named` / `rewrite_all`): a pattern that neither starts with a
caret nor ends with a dollar is wrapped with both anchors. -/
def autoAnchor (k : String) : String :=
  if ¬ (k.data.head? = some '^') && ¬ (k.data.getLast? = some '$') then
    "^" ++ k ++ "$"
  else k

/-- One iteration of the member-rule loop of `rewrite_named` (the loop
body of `v.iter().any(..)`; `rewrite_all` inlines the identical loop
with `member` fixed to "*"): auto-anchor and compile the member
pattern, run it against the member name, and on a match render that
pattern's template with `memberMatches` bound to the capture groups
(a group that did not participate becomes `""`, from
`x.map(|x| x.as_str()).unwrap_or_default()`).  `ok none` means this
pattern did not match and the loop continues. -/
def tryMemberPattern (key : String) (group : List String) (member : String)
    (pat tmpl : String) : Except TError (Option String) :=
  match compileRegex (autoAnchor pat) with
  | none => .error .invalidRegex
  | some re =>
    match reCaptures re member with
    | none => .ok none
    | some g =>
      match renderTemplate tmpl ⟨group, member, some (g.map (fun o => o.getD ""))⟩ with
      | .ok s => .ok (some s)
      | .error e => .error (.renderError key e)

/-- The member-rule loop itself: first matching pattern wins; `ok none`
when no pattern matched (the caller turns that into the missing-rule
panic). -/
def findMemberTemplate (key : String) (group : List String) (member : String) :
    List (String × String) → Except TError (Option String)
  | [] => .ok none
  | (k, t) :: rest =>
    match tryMemberPattern key group member k t with
    | .ok none => findMemberTemplate key group member rest
    | r => r

/-- Resolution of the rendered path for one member, per transform
shape: a single template renders with context `matches`/`member` only;
a member-rule list runs the loop above.  `ok none` means a member-rule
list with no matching pattern. -/
def transformPath (key : String) (group : List String) (member : String) :
    Transform → Except TError (Option String)
  | .string s =>
    match renderTemplate s ⟨group, member, none⟩ with
    | .ok r => .ok (some r)
    | .error e => .error (.renderError key e)
  | .vec v => findMemberTemplate key group member v

/-- `DUP_SLASH_REGEX.replace_all(path, "/")` with
`DUP_SLASH_REGEX = Regex::new(r"//")`: each leftmost non-overlapping
occurrence of two consecutive slashes is replaced by one slash. -/
def dupSlash : List Char → List Char
  | [] => []
  | [c] => [c]
  | a :: b :: rest =>
    if a = '/' ∧ b = '/' then '/' :: dupSlash rest
    else a :: dupSlash (b :: rest)

def dupSlashStr (s : String) : String := String.mk (dupSlash s.data)

/-- Whether two adjacent slashes occur anywhere. -/
def hasDupSlash : List Char → Bool
  | [] => false
  | [_] => false
  | a :: b :: rest => (a = '/' && b = '/') || hasDupSlash (b :: rest)

/-- The body of `rewrite_named`'s loop for one plain named specifier:
resolve the rendered path, normalise it, and build the single new
export statement — a namespace specifier named by the exported alias
(or the source name when there is no alias) by default, or the original
named specifier unchanged when `skip_default_conversion` is set. -/
def namedSpecifierOutput (key : String) (config : PackageConfig)
    (group : List String) (stmtSpan : Nat) (ns : ExportNamedSpecifier) :
    Except TError NamedExport :=
  match transformPath key group ns.orig.text config.transform with
  | .error e => .error e
  | .ok none => .error (.missingRule ns.orig.text key)
  | .ok (some path) =>
    .ok { span := stmtSpan
          specifiers := [if config.skipDefaultConversion then .named ns
                         else .nsSpec ns.span (ns.exported.getD ns.orig)]
          src := some (dupSlashStr path)
          typeOnly := false
          withAttrs := none }

/-- The specifier loop of `rewrite_named`: `acc` is the `out` vector.
A non-named specifier either aborts fatally (`prevent_full_export`) or
makes the whole call return the original statement alone, discarding
`acc`. -/
def rewriteSpecsGo (key : String) (config : PackageConfig) (group : List String)
    (old : NamedExport) (acc : List NamedExport) :
    List ExportSpecifier → Except TError (List NamedExport)
  | [] => .ok acc
  | .named ns :: rest =>
    match namedSpecifierOutput key config group old.span ns with
    | .error e => .error e
    | .ok stmt => rewriteSpecsGo key config group old (acc ++ [stmt]) rest
  | _ :: _ =>
    if config.preventFullExport then .error .fullModuleExport
    else .ok [old]

/-- The per-match rewriter handed out by `should_rewrite`: the matched
source path (`key`, used in panic messages), the rule, and the package
pattern's capture groups (already defaulted to `""`). -/
structure Rewriter where
  key : String
  config : PackageConfig
  group : List String
deriving DecidableEq, Repr

/-- `Rewriter::rewrite_named`. -/
def Rewriter.rewrite_named (rw : Rewriter) (old : NamedExport) :
    Except TError (List NamedExport) :=
  if old.typeOnly || old.withAttrs.isSome then .ok [old]
  else rewriteSpecsGo rw.key rw.config rw.group old [] old.specifiers

/-- `Rewriter::rewrite_all`: same path resolution with `member` fixed
to "*" (the code inlines a copy of the member-rule loop, identical to
`findMemberTemplate` with `member = "*"`), one output statement, and
`prevent_full_export` is never consulted. -/
def Rewriter.rewrite_all (rw : Rewriter) (old : ExportAll) :
    Except TError (List ExportAll) :=
  if old.typeOnly || old.withAttrs.isSome then .ok [old]
  else
    match transformPath rw.key rw.group "*" rw.config.transform with
    | .error e => .error e
    | .ok none => .error (.missingRule "*" rw.key)
    | .ok (some path) =>
      .ok [{ span := old.span
             src := dupSlashStr path
             typeOnly := false
             withAttrs := none }]

/-! ## The transform driver (`FoldExports`) -/

/-- The pattern table: compiled package patterns paired with their
rules, in registration order.  (The handlebars renderer the struct also
carries is the fixed one modelled by `renderTemplate`.) -/
structure FoldExports where
  packages : List (CompiledRE × PackageConfig)
deriving DecidableEq, Repr

/-- The lookup loop of `should_rewrite`: first pattern whose regex
matches the source path wins; its capture groups are defaulted to
`""`. -/
def lookupPackages (name : String) :
    List (CompiledRE × PackageConfig) → Option (PackageConfig × List String)
  | [] => none
  | (re, config) :: rest =>
    match reCaptures re name with
    | some g => some (config, g.map (fun o => o.getD ""))
    | none => lookupPackages name rest

/-- `FoldExports::should_rewrite`. -/
def should_rewrite (f : FoldExports) : Option String → Option Rewriter
  | none => none
  | some name =>
    (lookupPackages name f.packages).map (fun cg => ⟨name, cg.1, cg.2⟩)

/-- The statement loop of `fold_module`: named exports and export-alls
with a matching source are replaced by the rewriter's result, spliced
in place; everything else is copied through. -/
def foldItems (f : FoldExports) : List ModuleItem → Except TError (List ModuleItem)
  | [] => .ok []
  | .exportNamed decl :: rest =>
    match should_rewrite f decl.src with
    | some rw =>
      match rw.rewrite_named decl with
      | .error e => .error e
      | .ok outs =>
        match foldItems f rest with
        | .error e => .error e
        | .ok tail => .ok (outs.map .exportNamed ++ tail)
    | none =>
      match foldItems f rest with
      | .error e => .error e
      | .ok tail => .ok (.exportNamed decl :: tail)
  | .exportAll decl :: rest =>
    match should_rewrite f (some decl.src) with
    | some rw =>
      match rw.rewrite_all decl with
      | .error e => .error e
      | .ok outs =>
        match foldItems f rest with
        | .error e => .error e
        | .ok tail => .ok (outs.map .exportAll ++ tail)
    | none =>
      match foldItems f rest with
      | .error e => .error e
      | .ok tail => .ok (.exportAll decl :: tail)
  | item :: rest =>
    match foldItems f rest with
    | .error e => .error e
    | .ok tail => .ok (item :: tail)

/-- `Fold::fold_module`. -/
def fold_module (f : FoldExports) (m : Module) : Except TError Module :=
  match foldItems f m.body with
  | .error e => .error e
  | .ok items => .ok ⟨items⟩

/-- `modularize_exports`: build the pattern table, auto-anchoring each
package key and compiling it (an invalid pattern is fatal). -/
def modularize_exports : Config → Except TError FoldExports
  | [] => .ok ⟨[]⟩
  | (k, v) :: rest =>
    match compileRegex (autoAnchor k) with
    | none => .error .invalidRegex
    | some re =>
      match modularize_exports rest with
      | .error e => .error e
      | .ok f => .ok ⟨(re, v) :: f.packages⟩

/-! ## Spec-side definitions

These follow the specification's words, for comparison with the
translated code. -/

/-- One specifier rewrites successfully (is plain named and its path
renders). -/
def specRewriteOk (key : String) (config : PackageConfig) (group : List String)
    (span : Nat) : ExportSpecifier → Bool
  | .named ns => (namedSpecifierOutput key config group span ns).isOk
  | _ => false

/-- Spec §4.3 step 2: the one output statement a plain named specifier
is turned into, `none` when the specifier is not plain named or its
path resolution fails. -/
def specOutput? (key : String) (config : PackageConfig) (group : List String)
    (span : Nat) : ExportSpecifier → Option NamedExport
  | .named ns => (namedSpecifierOutput key config group span ns).toOption
  | _ => none

/-- No statement of the module matches the pattern table. -/
def moduleUntouchedBy (f : FoldExports) (m : Module) : Bool :=
  m.body.all (fun item =>
    match item with
    | .exportNamed d => (should_rewrite f d.src).isNone
    | .exportAll d => (should_rewrite f (some d.src)).isNone
    | .other _ => true)

/-- What the catch-all member pattern "*" compiles to after
auto-anchoring: `^*$`, i.e. a starred start anchor followed by the end
anchor, with no capture groups. -/
def wildcardRE : RE := .seq (.star .bos) (.seq .eos .eps)

def wildcardCRE : CompiledRE := ⟨wildcardRE, 0⟩

/-! ## Lemmas about path normalization -/

theorem dupSlash_id : ∀ (s : List Char), hasDupSlash s = false → dupSlash s = s
  | [], _ => rfl
  | [_], _ => rfl
  | a :: b :: rest, h => by
    have h' : ((a = '/' && b = '/') || hasDupSlash (b :: rest)) = false := h
    rw [Bool.or_eq_false_iff] at h'
    have hab : ¬ (a = '/' ∧ b = '/') := by
      intro ⟨h1, h2⟩
      simp [h1, h2] at h'
    unfold dupSlash
    rw [if_neg hab]
    exact congrArg (a :: ·) (dupSlash_id (b :: rest) h'.2)

/-! ## Lemmas about the wildcard member pattern -/

theorem reMatchF_starBos (k : Nat) (full : List Char) (p : Nat) :
    reMatchF (k + 2) full (.star .bos) p = [(p, [])] := by
  show ((reMatchF (k + 1) full .bos p).flatMap _) ++ [(p, [])] = [(p, [])]
  by_cases hp : p = 0
  · subst hp
    show ((if (0 : Nat) = 0 then [((0 : Nat), ([] : Caps))] else []).flatMap _) ++ _ = _
    simp
  · show ((if p = 0 then [(p, ([] : Caps))] else []).flatMap _) ++ _ = _
    rw [if_neg hp]
    simp

theorem reMatchF_eosEps (k : Nat) (full : List Char) (p : Nat) :
    reMatchF (k + 2) full (.seq .eos .eps) p =
      if p = full.length then [(p, [])] else [] := by
  show (reMatchF (k + 1) full .eos p).flatMap _ = _
  by_cases hp : p = full.length
  · subst hp
    show ((if full.length = full.length then [(full.length, ([] : Caps))] else []).flatMap _) = _
    simp [reMatchF]
  · show ((if p = full.length then [(p, ([] : Caps))] else []).flatMap _) = _
    rw [if_neg hp]
    simp

theorem reMatchF_wildcard (k : Nat) (full : List Char) (p : Nat) :
    reMatchF (k + 3) full wildcardRE p =
      if p = full.length then [(p, [])] else [] := by
  show (reMatchF (k + 2) full (.star .bos) p).flatMap _ = _
  rw [reMatchF_starBos]
  by_cases hp : p = full.length
  · subst hp
    simp [reMatchF_eosEps]
  · have hne : ¬ (p ≤ p ∧ p ≤ full.length) ∨ (p ≤ p ∧ p ≤ full.length) := by tauto
    rcases hne with hno | hyes
    · simp only [List.flatMap_cons, List.flatMap_nil, List.append_nil]
      rw [if_neg hno, if_neg hp]
    · simp only [List.flatMap_cons, List.flatMap_nil, List.append_nil]
      rw [if_pos hyes, reMatchF_eosEps, if_neg hp]
      simp

theorem matchFuel_ge_three (re : RE) (len : Nat) : 3 ≤ matchFuel re len := by
  unfold matchFuel
  have h1 : 2 ≤ re.size + 2 := by omega
  have h2 : 2 ≤ len + 2 := by omega
  calc 3 ≤ 2 * 2 * 2 := by norm_num
    _ ≤ (re.size + 2) * (len + 2) * (len + 2) :=
      Nat.mul_le_mul (Nat.mul_le_mul h1 h2) h2

theorem findSome?_eq_none_of_all {α β : Type} (f : α → Option β) :
    ∀ (l : List α), (∀ x ∈ l, f x = none) → l.findSome? f = none
  | [], _ => rfl
  | x :: xs, h => by
    rw [List.findSome?_cons]
    rw [h x (by simp)]
    exact findSome?_eq_none_of_all f xs (fun y hy => h y (by simp [hy]))

theorem reSearch_wildcard (full : List Char) :
    reSearch full wildcardRE = some (full.length, full.length, []) := by
  obtain ⟨k, hk⟩ : ∃ k, matchFuel wildcardRE full.length = k + 3 := by
    have := matchFuel_ge_three wildcardRE full.length
    exact ⟨matchFuel wildcardRE full.length - 3, by omega⟩
  unfold reSearch
  rw [hk]
  rw [List.range_succ, List.findSome?_append]
  have hnone : (List.range full.length).findSome? (fun p =>
      match reMatchF (k + 3) full wildcardRE p with
      | [] => none
      | ec :: _ => some (p, ec.1, ec.2)) = none := by
    apply findSome?_eq_none_of_all
    intro p hp
    rw [List.mem_range] at hp
    rw [reMatchF_wildcard, if_neg (Nat.ne_of_lt hp)]
  rw [hnone]
  simp only [List.findSome?_cons, List.findSome?_nil]
  rw [reMatchF_wildcard, if_pos rfl]
  rfl

theorem reCaptures_wildcard (m : String) :
    reCaptures wildcardCRE m = some [some ""] := by
  unfold reCaptures wildcardCRE
  rw [reSearch_wildcard]
  have h : sliceStr m.data m.data.length m.data.length = "" := by
    unfold sliceStr
    rw [Nat.sub_self, List.take_zero]
  simp only [List.range_zero, List.map_nil, Option.map_some', h]

theorem compileRegex_wildcard : compileRegex (autoAnchor "*") = some wildcardCRE := by
  decide

theorem tryMemberPattern_wildcard (key : String) (group : List String)
    (m t : String) : tryMemberPattern key group m "*" t ≠ .ok none := by
  unfold tryMemberPattern
  simp only [compileRegex_wildcard, reCaptures_wildcard]
  cases renderTemplate t ⟨group, m, some ([some ""].map (fun o => o.getD ""))⟩ <;> simp

theorem findMemberTemplate_wildcard (key : String) (group : List String)
    (m : String) (t : String) :
    ∀ v : List (String × String),
      findMemberTemplate key group m (v ++ [("*", t)]) ≠ .ok none
  | [] => by
    show findMemberTemplate key group m [("*", t)] ≠ .ok none
    unfold findMemberTemplate
    have h := tryMemberPattern_wildcard key group m t
    cases htry : tryMemberPattern key group m "*" t with
    | ok o =>
      cases o with
      | none => exact absurd htry h
      | some s => simp
    | error e => simp
  | (k0, t0) :: rest => by
    show findMemberTemplate key group m ((k0, t0) :: (rest ++ [("*", t)])) ≠ .ok none
    unfold findMemberTemplate
    cases htry : tryMemberPattern key group m k0 t0 with
    | ok o =>
      cases o with
      | none => exact findMemberTemplate_wildcard key group m t rest
      | some s => simp
    | error e => simp

/-- The member-pattern loop can only fail with the invalid-regex or the
render panic, never with the missing-rule one (that panic is raised by
the caller). -/
theorem tryMemberPattern_ne_missing (key : String) (group : List String)
    (m pat t s k' : String) :
    tryMemberPattern key group m pat t ≠ .error (.missingRule s k') := by
  unfold tryMemberPattern
  split
  · simp
  split
  · simp
  split <;> simp

theorem findMemberTemplate_ne_missing (key : String) (group : List String)
    (m s k' : String) :
    ∀ v : List (String × String),
      findMemberTemplate key group m v ≠ .error (.missingRule s k')
  | [] => by simp [findMemberTemplate]
  | (k0, t0) :: rest => by
    unfold findMemberTemplate
    cases htry : tryMemberPattern key group m k0 t0 with
    | ok o =>
      cases o with
      | none => exact findMemberTemplate_ne_missing key group m s k' rest
      | some v => simp
    | error e =>
      have := tryMemberPattern_ne_missing key group m k0 t0 s k'
      rw [htry] at this
      simpa using this

theorem transformPath_ne_missing (key : String) (group : List String)
    (m s k' : String) (tr : Transform) :
    transformPath key group m tr ≠ .error (.missingRule s k') := by
  cases tr with
  | string t =>
    simp only [transformPath]
    split <;> simp
  | vec v => exact findMemberTemplate_ne_missing key group m s k' v

/-- When every member pattern reports "no match", the loop reports "no
match" overall. -/
theorem findMemberTemplate_all_none (key : String) (group : List String)
    (m : String) :
    ∀ v : List (String × String),
      (∀ p ∈ v, tryMemberPattern key group m p.1 p.2 = .ok none) →
      findMemberTemplate key group m v = .ok none
  | [], _ => rfl
  | (k0, t0) :: rest, h => by
    unfold findMemberTemplate
    rw [h (k0, t0) (by simp)]
    exact findMemberTemplate_all_none key group m rest
      (fun p hp => h p (by simp [hp]))

/-- First-match-wins for the member-pattern loop: patterns before the
first matching one are skipped, and the loop's result is that
pattern's outcome, whatever follows it. -/
theorem findMemberTemplate_first (key : String) (group : List String)
    (m : String) (k t : String) (v₂ : List (String × String))
    (hne : tryMemberPattern key group m k t ≠ .ok none) :
    ∀ v₁ : List (String × String),
      (∀ p ∈ v₁, tryMemberPattern key group m p.1 p.2 = .ok none) →
      findMemberTemplate key group m (v₁ ++ (k, t) :: v₂) =
        tryMemberPattern key group m k t
  | [], _ => by
    show findMemberTemplate key group m ((k, t) :: v₂) = _
    unfold findMemberTemplate
    cases htry : tryMemberPattern key group m k t with
    | ok o =>
      cases o with
      | none => exact absurd htry hne
      | some s => simp
    | error e => simp
  | (k0, t0) :: rest, h => by
    show findMemberTemplate key group m ((k0, t0) :: (rest ++ (k, t) :: v₂)) = _
    unfold findMemberTemplate
    rw [h (k0, t0) (by simp)]
    exact findMemberTemplate_first key group m k t v₂ hne rest
      (fun p hp => h p (by simp [hp]))

/-! ## Lemmas about the specifier loop of rewrite_named -/

/-- The specifier loop never reports the missing-rule panic when the
rule's transform can always resolve a path. -/
theorem rewriteSpecsGo_no_missing (key : String) (config : PackageConfig)
    (group : List String) (old : NamedExport)
    (hne : ∀ member, transformPath key group member config.transform ≠ .ok none) :
    ∀ (specs : List ExportSpecifier) (acc : List NamedExport) (s k : String),
      rewriteSpecsGo key config group old acc specs ≠ .error (.missingRule s k)
  | [], acc, s, k => by simp [rewriteSpecsGo]
  | .named ns :: rest, acc, s, k => by
    unfold rewriteSpecsGo namedSpecifierOutput
    cases h : transformPath key group ns.orig.text config.transform with
    | error e =>
      intro hc
      simp only at hc
      cases hc
      exact transformPath_ne_missing key group ns.orig.text s k config.transform h
    | ok o =>
      cases o with
      | none => exact absurd h (hne ns.orig.text)
      | some path =>
        simp only
        exact rewriteSpecsGo_no_missing key config group old hne rest _ s k
  | .nsSpec sp nm :: rest, acc, s, k => by
    unfold rewriteSpecsGo
    split <;> simp
  | .defaultSpec sp e :: rest, acc, s, k => by
    unfold rewriteSpecsGo
    split <;> simp

/-- When every specifier is plain named and rewrites successfully, the
loop appends, in order, exactly one statement per specifier. -/
theorem rewriteSpecsGo_all_ok (key : String) (config : PackageConfig)
    (group : List String) (old : NamedExport) :
    ∀ (specs : List ExportSpecifier) (acc : List NamedExport),
      (∀ s ∈ specs, (specOutput? key config group old.span s).isSome = true) →
      rewriteSpecsGo key config group old acc specs =
        .ok (acc ++ specs.filterMap (specOutput? key config group old.span))
  | [], acc, _ => by simp [rewriteSpecsGo]
  | .named ns :: rest, acc, h => by
    have hh := h (.named ns) (by simp)
    simp only [specOutput?] at hh
    cases hout : namedSpecifierOutput key config group old.span ns with
    | error e => rw [hout] at hh; simp [Except.toOption] at hh
    | ok stmt =>
      unfold rewriteSpecsGo
      simp only [hout]
      rw [rewriteSpecsGo_all_ok key config group old rest (acc ++ [stmt])
        (fun s hs => h s (by simp [hs]))]
      simp [specOutput?, hout, Except.toOption, List.filterMap_cons]
  | .nsSpec sp nm :: rest, acc, h => by
    have hh := h (.nsSpec sp nm) (by simp)
    simp [specOutput?] at hh
  | .defaultSpec sp e :: rest, acc, h => by
    have hh := h (.defaultSpec sp e) (by simp)
    simp [specOutput?] at hh

/-- A non-named specifier decides the whole statement: fatal when
prevent_full_export is set, otherwise the original statement alone,
whatever was already accumulated. -/
theorem rewriteSpecsGo_nonnamed (key : String) (config : PackageConfig)
    (group : List String) (old : NamedExport) (spec : ExportSpecifier)
    (post : List ExportSpecifier) (hspec : spec.isNamed = false) :
    ∀ (pre : List ExportSpecifier) (acc : List NamedExport),
      (∀ s ∈ pre, specRewriteOk key config group old.span s = true) →
      rewriteSpecsGo key config group old acc (pre ++ spec :: post) =
        if config.preventFullExport then .error .fullModuleExport else .ok [old]
  | [], acc, _ => by
    cases spec with
    | named ns => simp [ExportSpecifier.isNamed] at hspec
    | nsSpec sp nm => rfl
    | defaultSpec sp e => rfl
  | .named ns :: rest, acc, h => by
    have hh := h (.named ns) (by simp)
    simp only [specRewriteOk] at hh
    cases hout : namedSpecifierOutput key config group old.span ns with
    | error e => rw [hout] at hh; simp [Except.isOk, Except.toBool] at hh
    | ok stmt =>
      show rewriteSpecsGo key config group old acc
        (.named ns :: (rest ++ spec :: post)) = _
      unfold rewriteSpecsGo
      simp only [hout]
      exact rewriteSpecsGo_nonnamed key config group old spec post hspec rest
        (acc ++ [stmt]) (fun s hs => h s (by simp [hs]))
  | .nsSpec sp nm :: rest, acc, h => by
    have hh := h (.nsSpec sp nm) (by simp)
    simp [specRewriteOk] at hh
  | .defaultSpec sp e :: rest, acc, h => by
    have hh := h (.defaultSpec sp e) (by simp)
    simp [specRewriteOk] at hh

/-! ## Lemmas about the driver -/

/-- Statements that match no package pattern pass through the driver
unchanged. -/
theorem foldItems_untouched (f : FoldExports) :
    ∀ items : List ModuleItem,
      (items.all fun item =>
        match item with
        | .exportNamed d => (should_rewrite f d.src).isNone
        | .exportAll d => (should_rewrite f (some d.src)).isNone
        | .other _ => true) = true →
      foldItems f items = .ok items
  | [], _ => rfl
  | .exportNamed d :: rest, h => by
    rw [List.all_cons, Bool.and_eq_true] at h
    have h1 : should_rewrite f d.src = none := by
      have h2 := h.1
      simpa [Option.isNone_iff_eq_none] using h2
    unfold foldItems
    rw [h1, foldItems_untouched f rest h.2]
  | .exportAll d :: rest, h => by
    rw [List.all_cons, Bool.and_eq_true] at h
    have h1 : should_rewrite f (some d.src) = none := by
      have h2 := h.1
      simpa [Option.isNone_iff_eq_none] using h2
    unfold foldItems
    rw [h1, foldItems_untouched f rest h.2]
  | .other k :: rest, h => by
    rw [List.all_cons, Bool.and_eq_true] at h
    unfold foldItems
    rw [foldItems_untouched f rest h.2]


/-! ## Claim C1: path normalization -/

/-- C1, counterexample.  The claim says normalization collapses every
run of consecutive slashes to a single slash, that the normalized path
never contains two adjacent slashes, and that `my-library///Foo`
normalizes to `my-library/Foo`.  In the code the replacement pattern is
the two-character `//`, so `replace_all` halves a run instead of
collapsing it: `my-library///Foo` normalizes to `my-library//Foo`, the
output statement of the full pass can still carry adjacent slashes, and
normalization is not idempotent on `my-library////x`. -/
theorem C1_normalization_counterexample :
    dupSlashStr "my-library///Foo" = "my-library//Foo"
    ∧ dupSlashStr "my-library///Foo" ≠ "my-library/Foo"
    ∧ hasDupSlash (dupSlashStr "my-library///Foo").data = true
    ∧ dupSlashStr (dupSlashStr "my-library////x") ≠ dupSlashStr "my-library////x"
    ∧ (modularize_exports
        [("my-library", ⟨.string "my-library///{{member}}", false, false⟩)]).map
        (fun f => fold_module f
          ⟨[.exportNamed ⟨0, [.named ⟨1, .ident "Foo", none, false⟩],
              some "my-library", false, none⟩]⟩)
      = .ok (.ok ⟨[.exportNamed ⟨0, [.nsSpec 1 (.ident "Foo")],
              some "my-library//Foo", false, none⟩]⟩) := by
  exact ⟨by decide, by decide, by decide, by decide, by decide⟩

/-- C1, amended.  Path normalization replaces each leftmost
non-overlapping occurrence of two consecutive slashes with one slash:
a path with no two adjacent slashes is left unchanged (so a single
doubled slash collapses, e.g. `my-library//Foo` to `my-library/Foo`),
while a run of three slashes only halves, to `my-library//Foo`. -/
theorem C1_normalization_amended :
    (∀ s : List Char, hasDupSlash s = false → dupSlash s = s)
    ∧ dupSlashStr "my-library//Foo" = "my-library/Foo"
    ∧ dupSlashStr "my-library///Foo" = "my-library//Foo" :=
  ⟨dupSlash_id, by decide, by decide⟩

/-- Witness for C1: the amended identity applied at a concrete
slash-duplicate-free path. -/
theorem C1_normalization_amended_witness :
    dupSlash "my-library/Foo".data = "my-library/Foo".data :=
  C1_normalization_amended.1 "my-library/Foo".data (by decide)

/-! ## Claim C2: the literal "*" member pattern is a catch-all -/

/-- C2.  The member pattern "*" is auto-anchored to `^*$`, which
compiles and matches every member name (with an empty whole-match), so
the member-rule loop with a trailing `("*", template)` entry never
reports "no pattern matched", and `rewrite_named` under such a rule
never raises the missing-rule error. -/
theorem C2_wildcard_catchall :
    (∀ m : String, reCaptures wildcardCRE m = some [some ""])
    ∧ autoAnchor "*" = "^*$"
    ∧ compileRegex "^*$" = some wildcardCRE
    ∧ (∀ (key : String) (group : List String) (m t : String)
        (v : List (String × String)),
        findMemberTemplate key group m (v ++ [("*", t)]) ≠ .ok none)
    ∧ (∀ (rw : Rewriter) (old : NamedExport) (v : List (String × String))
        (t : String),
        rw.config.transform = .vec (v ++ [("*", t)]) →
        ∀ s k, rw.rewrite_named old ≠ .error (.missingRule s k)) := by
  refine ⟨reCaptures_wildcard, by decide, by decide,
    fun key group m t v => findMemberTemplate_wildcard key group m t v, ?_⟩
  intro rw old v t hcfg s k
  unfold Rewriter.rewrite_named
  split
  · simp
  · apply rewriteSpecsGo_no_missing
    intro member
    rw [hcfg]
    exact findMemberTemplate_wildcard rw.key rw.group member t v

/-- Witness for C2: a concrete rule list ending in the catch-all,
applied to a member no earlier pattern matches. -/
theorem C2_wildcard_catchall_witness :
    Rewriter.rewrite_named
        ⟨"my-library-4",
         ⟨.vec [("foo", "my-library-4/this_is_foo"),
                ("*", "my-library-4/{{ upperCase member }}")], false, true⟩,
         ["my-library-4"]⟩
        ⟨0, [.named ⟨1, .ident "zzz", none, false⟩], some "my-library-4",
         false, none⟩
      ≠ .error (.missingRule "zzz" "my-library-4") :=
  C2_wildcard_catchall.2.2.2.2 _ _ [("foo", "my-library-4/this_is_foo")]
    "my-library-4/{{ upperCase member }}" rfl "zzz" "my-library-4"

/-! ## Claim C3: rendering and absent bindings -/

/-- C3, counterexample.  The claim says rendering fails fatally
whenever the template references a binding not present in the context,
e.g. a single-Template rule referencing `memberMatches`, and that no
default is ever substituted.  The renderer is built with handlebars
defaults (strict mode off), so the absent `memberMatches` renders as
the empty string and the full pass succeeds, producing `pkg/x` from the
template `pkg/{{memberMatches.[1]}}/x` with no error. -/
theorem C3_render_error_counterexample :
    (modularize_exports
      [("pkg", ⟨.string "pkg/{{memberMatches.[1]}}/x", false, false⟩)]).map
      (fun f => fold_module f
        ⟨[.exportNamed ⟨0, [.named ⟨1, .ident "Foo", none, false⟩],
            some "pkg", false, none⟩]⟩)
    = .ok (.ok ⟨[.exportNamed ⟨0, [.nsSpec 1 (.ident "Foo")],
            some "pkg/x", false, none⟩]⟩) := by
  decide

/-- C3, amended.  Rendering fails fatally, reporting the package key,
only when the template itself is broken — a syntactically invalid
interpolation or a call to an unregistered helper; a referenced binding
absent from the context (such as `memberMatches` under a
single-Template rule) renders as the empty string instead of
erroring. -/
theorem C3_render_error_amended :
    (∀ (group : List String) (member : String),
      renderTemplate "{{memberMatches.[1]}}" ⟨group, member, none⟩ = .ok "")
    ∧ (∀ (key : String) (group : List String) (member : String),
      transformPath key group member (.string "pkg/{{}}")
        = .error (.renderError key "invalid template expression"))
    ∧ (∀ (key : String) (group : List String) (member : String),
      transformPath key group member (.string "pkg/{{foo member}}")
        = .error (.renderError key "helper not defined")) :=
  ⟨fun _ _ => rfl, fun _ _ _ => rfl, fun _ _ _ => rfl⟩


/-! ## Claim C4: non-named specifiers are all-or-nothing -/

/-- C4.  In a matched named-export statement (not type-only, no
attributes), a namespace or default specifier makes the whole rewrite
fail fatally when `prevent_full_export` is set, and otherwise makes the
call return exactly the original statement as the sole output,
discarding the statements already built for the earlier (successfully
rewritten) specifiers. -/
theorem C4_non_named_specifier (rw : Rewriter) (old : NamedExport)
    (pre : List ExportSpecifier) (spec : ExportSpecifier)
    (post : List ExportSpecifier)
    (hspecs : old.specifiers = pre ++ spec :: post)
    (hty : old.typeOnly = false) (hw : old.withAttrs = none)
    (hpre : ∀ s ∈ pre, specRewriteOk rw.key rw.config rw.group old.span s = true)
    (hspec : spec.isNamed = false) :
    rw.rewrite_named old =
      if rw.config.preventFullExport then .error .fullModuleExport
      else .ok [old] := by
  have hcond : (old.typeOnly || old.withAttrs.isSome) = false := by
    rw [hty, hw]
    rfl
  unfold Rewriter.rewrite_named
  rw [hcond]
  simp only [Bool.false_eq_true, if_false]
  rw [hspecs]
  exact rewriteSpecsGo_nonnamed rw.key rw.config rw.group old spec post hspec
    pre [] hpre

def C4rewriterT : Rewriter :=
  ⟨"pkg", ⟨.string "pkg/{{member}}", true, false⟩, ["pkg"]⟩

def C4rewriterF : Rewriter :=
  ⟨"pkg", ⟨.string "pkg/{{member}}", false, false⟩, ["pkg"]⟩

def C4stmt : NamedExport :=
  ⟨0, [.named ⟨1, .ident "A", none, false⟩, .nsSpec 2 (.ident "ns")],
   some "pkg", false, none⟩

/-- Witness for C4: the same mixed statement under both values of
`prevent_full_export`; one named specifier precedes the namespace
specifier, and its already-computed rewrite is discarded. -/
theorem C4_non_named_specifier_witness :
    (C4rewriterT.rewrite_named C4stmt = .error .fullModuleExport)
    ∧ (C4rewriterF.rewrite_named C4stmt = .ok [C4stmt]) := by
  constructor
  · have h := C4_non_named_specifier C4rewriterT C4stmt
      [.named ⟨1, .ident "A", none, false⟩] (.nsSpec 2 (.ident "ns")) []
      rfl rfl rfl (by decide) rfl
    exact h.trans (by decide)
  · have h := C4_non_named_specifier C4rewriterF C4stmt
      [.named ⟨1, .ident "A", none, false⟩] (.nsSpec 2 (.ident "ns")) []
      rfl rfl rfl (by decide) rfl
    exact h.trans (by decide)

/-! ## Claim C5: package patterns are auto-anchored -/

def C5config : Config :=
  [("react-bootstrap", ⟨.string "react-bootstrap/lib/{{member}}", false, false⟩)]

def C5stmtExtra : NamedExport :=
  ⟨0, [.named ⟨1, .ident "Button", none, false⟩], some "react-bootstrap-extra",
   false, none⟩

def C5stmtMy : ExportAll := ⟨2, "my-react-bootstrap", false, none⟩

/-- C5.  The unanchored pattern string "react-bootstrap" is
auto-anchored, so `should_rewrite` matches the source path
"react-bootstrap" and matches neither "react-bootstrap-extra" nor
"my-react-bootstrap", whose statements pass through the driver
unmodified. -/
theorem C5_anchoring :
    (modularize_exports C5config).map (fun f =>
      ((should_rewrite f (some "react-bootstrap")).isSome,
       should_rewrite f (some "react-bootstrap-extra"),
       should_rewrite f (some "my-react-bootstrap"),
       fold_module f ⟨[.exportNamed C5stmtExtra, .exportAll C5stmtMy]⟩))
    = .ok (true, none, none,
           .ok ⟨[.exportNamed C5stmtExtra, .exportAll C5stmtMy]⟩) := by
  decide

/-! ## Claim C6: export-all statements rewrite unconditionally -/

/-- C6.  An export-all statement that is not type-only, carries no
attributes clause, and matched a package rule is rewritten to exactly
one export-all statement whose source is the rendered, normalized path
with `member` bound to the literal "*" — for either value of
`prevent_full_export` (the flag is not consulted). -/
theorem C6_export_all (key : String) (t : Transform) (pfe sdc : Bool)
    (group : List String) (old : ExportAll) (path : String)
    (hty : old.typeOnly = false) (hw : old.withAttrs = none)
    (hpath : transformPath key group "*" t = .ok (some path)) :
    Rewriter.rewrite_all ⟨key, ⟨t, pfe, sdc⟩, group⟩ old =
      .ok [⟨old.span, dupSlashStr path, false, none⟩] := by
  have hcond : (old.typeOnly || old.withAttrs.isSome) = false := by
    rw [hty, hw]
    rfl
  unfold Rewriter.rewrite_all
  rw [hcond]
  simp only [Bool.false_eq_true, if_false, hpath]

/-- Witness for C6: a concrete export-all rewritten identically under
both values of `prevent_full_export`. -/
theorem C6_export_all_witness :
    (Rewriter.rewrite_all
        ⟨"pkg", ⟨.string "pkg/dist/{{member}}", true, false⟩, ["pkg"]⟩
        ⟨7, "pkg", false, none⟩
      = .ok [⟨7, "pkg/dist/*", false, none⟩])
    ∧ (Rewriter.rewrite_all
        ⟨"pkg", ⟨.string "pkg/dist/{{member}}", false, false⟩, ["pkg"]⟩
        ⟨7, "pkg", false, none⟩
      = .ok [⟨7, "pkg/dist/*", false, none⟩]) := by
  constructor
  · have h := C6_export_all "pkg" (.string "pkg/dist/{{member}}") true false
      ["pkg"] ⟨7, "pkg", false, none⟩ "pkg/dist/*" rfl rfl (by decide)
    exact h.trans (by decide)
  · have h := C6_export_all "pkg" (.string "pkg/dist/{{member}}") false false
      ["pkg"] ⟨7, "pkg", false, none⟩ "pkg/dist/*" rfl rfl (by decide)
    exact h.trans (by decide)


/-! ## Claim C7: member rules are tried in order, first match wins -/

/-- C7.  Under an OrderedMemberRules transform the member patterns are
tried in list order against the member name; the first matching
pattern's template is the one rendered, with `memberMatches` bound to
that pattern's capture groups (unparticipating groups defaulted to "");
and when no member pattern matches, the rewrite fails fatally with the
missing-rule error reporting the symbol name and the package key. -/
theorem C7_member_rule_order :
    (∀ (key : String) (group : List String) (m k t : String)
       (v₁ v₂ : List (String × String)) (re : CompiledRE)
       (g : List (Option String)),
       (∀ p ∈ v₁, tryMemberPattern key group m p.1 p.2 = .ok none) →
       compileRegex (autoAnchor k) = some re →
       reCaptures re m = some g →
       findMemberTemplate key group m (v₁ ++ (k, t) :: v₂) =
         match renderTemplate t ⟨group, m, some (g.map (fun o => o.getD ""))⟩ with
         | .ok s => .ok (some s)
         | .error e => .error (.renderError key e))
    ∧ (∀ (key : String) (config : PackageConfig) (group : List String)
         (ns : ExportNamedSpecifier) (old : NamedExport)
         (v : List (String × String)),
         config.transform = .vec v →
         (∀ p ∈ v, tryMemberPattern key group ns.orig.text p.1 p.2 = .ok none) →
         old.specifiers = [.named ns] → old.typeOnly = false →
         old.withAttrs = none →
         Rewriter.rewrite_named ⟨key, config, group⟩ old
           = .error (.missingRule ns.orig.text key)) := by
  constructor
  · intro key group m k t v₁ v₂ re g h1 h2 h3
    have hne : tryMemberPattern key group m k t ≠ .ok none := by
      unfold tryMemberPattern
      simp only [h2, h3]
      split <;> simp
    rw [findMemberTemplate_first key group m k t v₂ hne v₁ h1]
    unfold tryMemberPattern
    simp only [h2, h3]
  · intro key config group ns old v hcfg hall hspecs hty hw
    have hcond : (old.typeOnly || old.withAttrs.isSome) = false := by
      rw [hty, hw]
      rfl
    have hpath : transformPath key group ns.orig.text config.transform
        = .ok none := by
      rw [hcfg]
      exact findMemberTemplate_all_none key group ns.orig.text v hall
    unfold Rewriter.rewrite_named
    rw [hcond]
    simp only [Bool.false_eq_true, if_false]
    rw [hspecs]
    unfold rewriteSpecsGo namedSpecifierOutput
    simp only [hpath]

/-- Witness for C7: in the spec's scenario-C rule list (with the
modelled pattern fragment), `useButton` skips the two literal patterns
and is rendered by the first matching pattern. -/
theorem C7_member_rule_order_witness :
    findMemberTemplate "my-library-4" ["my-library-4"] "useButton"
        ([("foo", "my-library-4/this_is_foo"), ("bar", "my-library-4/bar")] ++
          ("use(.*)",
           "my-library-4/{{ kebabCase member }}/{{ kebabCase memberMatches.[1] }}") ::
          [("(.*)Icon", "my-library-4/{{ kebabCase memberMatches.[1] }}"),
           ("*", "my-library-4/{{ upperCase member }}")])
      = .ok (some "my-library-4/use-button/button") := by
  have h := C7_member_rule_order.1 "my-library-4" ["my-library-4"] "useButton"
    "use(.*)"
    "my-library-4/{{ kebabCase member }}/{{ kebabCase memberMatches.[1] }}"
    [("foo", "my-library-4/this_is_foo"), ("bar", "my-library-4/bar")]
    [("(.*)Icon", "my-library-4/{{ kebabCase memberMatches.[1] }}"),
     ("*", "my-library-4/{{ upperCase member }}")]
    _ _ (by decide) rfl rfl
  exact h.trans (by decide)

/-! ## Claim C8: one output statement per plain-named specifier -/

/-- C8.  When every specifier of a matched named-export statement (not
type-only, no attributes) is plain named and rewrites successfully, the
output is exactly one new single-specifier statement per input
specifier, in the original order; each one carries the rendered,
normalized path as its source, and its specifier is a namespace
specifier named by the exported alias (or the source name without an
alias) when `skip_default_conversion` is off, and the original named
specifier unchanged when it is on. -/
theorem C8_per_specifier_output :
    (∀ (rw : Rewriter) (old : NamedExport),
       old.typeOnly = false → old.withAttrs = none →
       (∀ s ∈ old.specifiers,
         (specOutput? rw.key rw.config rw.group old.span s).isSome = true) →
       rw.rewrite_named old =
         .ok (old.specifiers.filterMap
           (specOutput? rw.key rw.config rw.group old.span)))
    ∧ (∀ (key : String) (config : PackageConfig) (group : List String)
         (span : Nat) (ns : ExportNamedSpecifier) (path : String),
         transformPath key group ns.orig.text config.transform
           = .ok (some path) →
         specOutput? key config group span (.named ns) =
           some ⟨span,
                 [if config.skipDefaultConversion then .named ns
                  else .nsSpec ns.span (ns.exported.getD ns.orig)],
                 some (dupSlashStr path), false, none⟩) := by
  constructor
  · intro rw old hty hw h
    have hcond : (old.typeOnly || old.withAttrs.isSome) = false := by
      rw [hty, hw]
      rfl
    unfold Rewriter.rewrite_named
    rw [hcond]
    simp only [Bool.false_eq_true, if_false]
    have := rewriteSpecsGo_all_ok rw.key rw.config rw.group old
      old.specifiers [] h
    simpa using this
  · intro key config group span ns path hpath
    simp only [specOutput?, namedSpecifierOutput, hpath, Except.toOption]

def C8rewriter : Rewriter :=
  ⟨"react-bootstrap", ⟨.string "react-bootstrap/lib/{{member}}", false, false⟩,
   ["react-bootstrap"]⟩

def C8stmt : NamedExport :=
  ⟨0, [.named ⟨1, .ident "Button", none, false⟩,
       .named ⟨2, .ident "Alert", none, false⟩],
   some "react-bootstrap", false, none⟩

/-- Witness for C8: the spec's scenario A — exporting Button and Alert
from react-bootstrap yields two namespace-export statements in
order. -/
theorem C8_per_specifier_output_witness :
    C8rewriter.rewrite_named C8stmt
      = .ok [⟨0, [.nsSpec 1 (.ident "Button")],
              some "react-bootstrap/lib/Button", false, none⟩,
             ⟨0, [.nsSpec 2 (.ident "Alert")],
              some "react-bootstrap/lib/Alert", false, none⟩] := by
  have h := C8_per_specifier_output.1 C8rewriter C8stmt rfl rfl (by decide)
  exact h.trans (by decide)

/-! ## Claim C9: the pass as a fixed point -/

def C9config : Config :=
  [("my-lib(.*)", ⟨.string "my-lib/sub{{matches.[1]}}", false, false⟩)]

def C9module : Module := ⟨[.exportAll ⟨0, "my-lib", false, none⟩]⟩

/-- C9, counterexample.  The claim says a second application always
returns the first application's output unchanged because a rewritten
path no longer matches the anchored package pattern.  With the package
pattern `my-lib(.*)` and template `my-lib/sub{{matches.[1]}}`, the
first pass sends `export * from "my-lib"` to source `my-lib/sub`, which
the pattern matches again, and the second pass produces
`my-lib/sub/sub` — not a fixed point. -/
theorem C9_fixed_point_counterexample :
    ((modularize_exports C9config).bind (fun f => fold_module f C9module)
       = .ok ⟨[.exportAll ⟨0, "my-lib/sub", false, none⟩]⟩)
    ∧ ((modularize_exports C9config).bind (fun f =>
         fold_module f ⟨[.exportAll ⟨0, "my-lib/sub", false, none⟩]⟩)
       = .ok ⟨[.exportAll ⟨0, "my-lib/sub/sub", false, none⟩]⟩)
    ∧ (⟨[.exportAll ⟨0, "my-lib/sub/sub", false, none⟩]⟩ : Module)
       ≠ ⟨[.exportAll ⟨0, "my-lib/sub", false, none⟩]⟩ := by
  exact ⟨by decide, by decide, by decide⟩

/-- C9, amended.  Re-running the pass is a no-op on any module none of
whose export sources match the pattern table — in particular on the
pass's own output whenever every rewritten source path no longer
matches any package pattern (as with fully-anchored literal patterns);
a pattern with capture groups can re-match its own output, and the pass
is then not idempotent. -/
theorem C9_fixed_point_amended (f : FoldExports) (m : Module)
    (h : moduleUntouchedBy f m = true) : fold_module f m = .ok m := by
  unfold moduleUntouchedBy at h
  unfold fold_module
  rw [foldItems_untouched f m.body h]

def C9wTable : FoldExports :=
  ⟨[(⟨.seq .bos (.seq (.lit 'p') (.seq .eos .eps)), 0⟩,
     ⟨.string "p/{{member}}", false, false⟩)]⟩

/-- Witness for C9: a module whose export sources miss the (anchored)
pattern for "p" is returned unchanged. -/
theorem C9_fixed_point_amended_witness :
    fold_module C9wTable ⟨[.exportAll ⟨0, "q", false, none⟩, .other 5]⟩
      = .ok ⟨[.exportAll ⟨0, "q", false, none⟩, .other 5]⟩ :=
  C9_fixed_point_amended C9wTable _ (by decide)

/-! ## Claim C10: capture-group sequences and unmatched groups -/

def C10config : PackageConfig :=
  ⟨.string "lib/{{matches.[1]}}/{{member}}", false, false⟩

def C10cre : CompiledRE :=
  ⟨.seq .bos (.seq (.lit 'l') (.seq (.lit 'i') (.seq (.lit 'b')
    (.seq (.star (.group 1 (.seq (.lit 'x') .eps))) (.seq .eos .eps))))), 1⟩

/-- C10.  A successful capture always yields one entry per group with
entry 0 the whole match; the code then defaults every unparticipating
group to the empty string, both in `should_rewrite` (package pattern:
for `lib(x)*` on "lib" the rewriter's groups are `["lib", ""]`) and in
the member-rule loop (member pattern: for `(x)*y` on "y" the template
sees `memberMatches.[0] = "y"` and `memberMatches.[1] = ""`). -/
theorem C10_capture_groups :
    (∀ (cre : CompiledRE) (s : String) (g : List (Option String)),
       reCaptures cre s = some g →
       g.length = cre.groups + 1 ∧ ∃ w, g.head? = some (some w))
    ∧ ((modularize_exports [("lib(x)*", C10config)]).map
         (fun f => should_rewrite f (some "lib"))
       = .ok (some ⟨"lib", C10config, ["lib", ""]⟩))
    ∧ (findMemberTemplate "pkg" [] "y"
         [("(x)*y", "a-{{memberMatches.[0]}}-{{memberMatches.[1]}}-b")]
       = .ok (some "a-y--b")) := by
  refine ⟨?_, by decide, by decide⟩
  intro cre s g h
  unfold reCaptures at h
  cases hs : reSearch s.data cre.re with
  | none => rw [hs] at h; cases h
  | some r =>
    rw [hs] at h
    simp only [Option.map_some'] at h
    cases h
    constructor
    · simp
    · exact ⟨_, rfl⟩

/-- Witness for C10: the capture-shape facts at the concrete compiled
pattern `^lib(x)*$` matched against "lib", where the starred group does
not participate. -/
theorem C10_capture_groups_witness :
    ([some "lib", none] : List (Option String)).length = C10cre.groups + 1
    ∧ ∃ w, ([some "lib", none] : List (Option String)).head?
        = some (some w) :=
  C10_capture_groups.1 C10cre "lib" [some "lib", none] (by decide)

end TransformExports
